import Mathlib

/-!
Verification of the reliq-particle-image particle engine.

Shallow embedding of the JavaScript source:
* `FrameCache` (src/utils/FrameCache.js) and the frame-loading path of
  `AnimationSystem.loadAnimationFrames` (src/core/AnimationSystem.js);
* `CoreParticleSystem.createImageParticles` (src/core/CoreParticleSystem.js);
* the `animate`/`stop` frame driver of `AnimationSystem`;
* `FadeEffect` and `ScatterEffect` (src/effects/ScatterEffect.js);
* `InteractionManager.applyRepulsion` (src/interaction/InteractionManager.js);
* the random / around-image placement loops of `SecondaryParticleSystem`
  (src/core/SecondaryParticleSystem.js).

Machine numbers are idealised: integer quantities use `Nat`/`Int`, pixel
coordinates and clock times use `ℚ`, and geometry that goes through
`Math.sqrt`/`Math.cos`/`Math.sin` uses `ℝ`.  JavaScript truthiness on
numeric fields (`v || default`) is modelled explicitly: a missing field is
`none` and the value `0` is falsy.  Sources of randomness
(`Math.random()`, `Date.now()`, `performance.now()`) are passed in as
explicit parameters.
-/

namespace Reliq

/-- JavaScript `v || d` for an optional numeric field: `undefined`/`null`
and `0` are falsy and select the default. -/
def jsOrQ (v : Option ℚ) (d : ℚ) : ℚ :=
  match v with
  | none => d
  | some x => if x = 0 then d else x

/-- JavaScript `v || d` for a plain numeric value (`0` is falsy). -/
def jsOr0 (v d : ℚ) : ℚ :=
  if v = 0 then d else v

/-- JavaScript `Math.round`: half-way cases round toward `+∞`. -/
def jsRound (q : ℚ) : ℤ :=
  ⌊q + 1 / 2⌋

/-! ## Pixel buffers

`ImageData`-like value consumed by particle seeding and stored by the
frame cache.  `data` is `none` when the `data` field is absent (JS
`!pixelData.data`); a present buffer is the flat RGBA byte list. -/

structure PixelData where
  data : Option (List ℕ)
  width : ℕ
  height : ℕ
  deriving Repr, DecidableEq

/-! ## FrameCache (src/utils/FrameCache.js) -/

/-- JavaScript `Map.set`: overwrite the binding if the key is present,
otherwise append it. -/
def mapSet (m : List (ℕ × PixelData)) (k : ℕ) (v : PixelData) : List (ℕ × PixelData) :=
  if m.any (fun e => decide (e.1 = k)) then
    m.map (fun e => if e.1 = k then (k, v) else e)
  else
    m ++ [(k, v)]

/-- JavaScript `Map.get(k)` (`undefined` becomes `null` via `|| null`):
the value of the binding for `k`, if any. -/
def mapGet (m : List (ℕ × PixelData)) (k : ℕ) : Option PixelData :=
  match m with
  | [] => none
  | e :: t => if e.1 = k then some e.2 else mapGet t k

structure FrameCache where
  frames : List (ℕ × PixelData)
  loadedCount : ℕ
  totalCount : ℕ
  isInitialized : Bool
  deriving Repr, DecidableEq

/-- `new FrameCache()`. -/
def FrameCache.new : FrameCache :=
  { frames := [], loadedCount := 0, totalCount := 0, isInitialized := false }

/-- The cache reset method `initialize(frameNumbers)` of `FrameCache`
(renamed here to avoid a keyword clash). -/
def FrameCache.initFrames (_c : FrameCache) (frameNumbers : List ℕ) : FrameCache :=
  { frames := [], loadedCount := 0, totalCount := frameNumbers.length, isInitialized := false }

/-- `FrameCache.cacheFrame(frameNum, img, bounds, tempCanvas)`: the
rasterised pixel buffer is an input here (canvas readback is external);
the cache stores it and increments `loadedCount`. -/
def FrameCache.cacheFrame (c : FrameCache) (frameNum : ℕ) (pixelData : PixelData) : FrameCache :=
  { c with
    frames := mapSet c.frames frameNum pixelData
    loadedCount := c.loadedCount + 1 }

/-- `FrameCache.getFrame(frameNum)`: `frames.get(frameNum) || null`. -/
def FrameCache.getFrame (c : FrameCache) (frameNum : ℕ) : Option PixelData :=
  mapGet c.frames frameNum

/-- `FrameCache.isFullyLoaded()`:
`loadedCount >= totalCount && totalCount > 0`. -/
def FrameCache.isFullyLoaded (c : FrameCache) : Bool :=
  decide (c.totalCount ≤ c.loadedCount) && decide (0 < c.totalCount)

/-- `FrameCache.getProgress()`:
`totalCount > 0 ? loadedCount / totalCount : 0`. -/
def FrameCache.getProgress (c : FrameCache) : ℚ :=
  if 0 < c.totalCount then (c.loadedCount : ℚ) / (c.totalCount : ℚ) else 0

/-- `FrameCache.clear()`. -/
def FrameCache.clear (_c : FrameCache) : FrameCache :=
  { frames := [], loadedCount := 0, totalCount := 0, isInitialized := false }

/-! ## AnimationSystem.loadAnimationFrames (src/core/AnimationSystem.js)

Per frame, an `Image` is fetched.  On `load` the frame is rasterised and
`cacheFrame` runs; on `error` the promise merely resolves — the cache is
not touched.  After `Promise.all`, `isInitialized` is set.  The fetch
outcome per frame id and the rasterised buffer are inputs. -/

/-- One frame's load handler: success caches, failure only resolves. -/
def loadOneFrame (outcome : ℕ → Bool) (raster : ℕ → PixelData)
    (c : FrameCache) (frameNum : ℕ) : FrameCache :=
  if outcome frameNum then c.cacheFrame frameNum (raster frameNum) else c

/-- `loadAnimationFrames`: initialise the cache with the frame list,
run every frame's load/error handler, then mark the cache initialised. -/
def loadAnimationFrames (cache : FrameCache) (animationFrames : List ℕ)
    (outcome : ℕ → Bool) (raster : ℕ → PixelData) : FrameCache :=
  let c := cache.initFrames animationFrames
  { (animationFrames.foldl (loadOneFrame outcome raster) c) with isInitialized := true }

/-! ### Lemmas about the frame-loading fold -/

theorem mapGet_replace_ne (m : List (ℕ × PixelData)) (k f : ℕ) (v : PixelData)
    (h : k ≠ f) :
    mapGet (m.map (fun e => if e.1 = k then (k, v) else e)) f = mapGet m f := by
  induction m with
  | nil => rfl
  | cons e t ih =>
    by_cases hek : e.1 = k
    · simp [mapGet, hek, h, ih]
    · simp [mapGet, hek, ih]

theorem mapGet_append_ne (m : List (ℕ × PixelData)) (k f : ℕ) (v : PixelData)
    (h : k ≠ f) : mapGet (m ++ [(k, v)]) f = mapGet m f := by
  induction m with
  | nil => simp [mapGet, h]
  | cons e t ih => simp [mapGet, ih]

theorem mapGet_mapSet_ne (m : List (ℕ × PixelData)) (k f : ℕ) (v : PixelData)
    (h : k ≠ f) : mapGet (mapSet m k v) f = mapGet m f := by
  unfold mapSet
  by_cases hmem : (m.any fun e => decide (e.1 = k)) = true
  · rw [if_pos hmem, mapGet_replace_ne m k f v h]
  · rw [if_neg hmem, mapGet_append_ne m k f v h]

theorem loadFold_loadedCount (outcome : ℕ → Bool) (raster : ℕ → PixelData)
    (frames : List ℕ) (c : FrameCache) :
    (frames.foldl (loadOneFrame outcome raster) c).loadedCount
      = c.loadedCount + frames.countP outcome := by
  induction frames generalizing c with
  | nil => simp
  | cons f t ih =>
    by_cases h : outcome f
    · simp [loadOneFrame, h, ih, FrameCache.cacheFrame, List.countP_cons]
      omega
    · simp [loadOneFrame, h, ih, List.countP_cons]

theorem loadFold_totalCount (outcome : ℕ → Bool) (raster : ℕ → PixelData)
    (frames : List ℕ) (c : FrameCache) :
    (frames.foldl (loadOneFrame outcome raster) c).totalCount = c.totalCount := by
  induction frames generalizing c with
  | nil => rfl
  | cons f t ih =>
    by_cases h : outcome f
    · simp [loadOneFrame, h, ih, FrameCache.cacheFrame]
    · simp [loadOneFrame, h, ih]

theorem loadFold_getFrame_failed (outcome : ℕ → Bool) (raster : ℕ → PixelData)
    (frames : List ℕ) (c : FrameCache) (f0 : ℕ) (hfail : outcome f0 = false)
    (hnone : mapGet c.frames f0 = none) :
    mapGet (frames.foldl (loadOneFrame outcome raster) c).frames f0 = none := by
  induction frames generalizing c with
  | nil => exact hnone
  | cons f t ih =>
    by_cases h : outcome f
    · have hne : f ≠ f0 := by
        intro he
        rw [he] at h
        simp [hfail] at h
      refine ih _ ?_
      simpa [loadOneFrame, h, FrameCache.cacheFrame, mapGet_mapSet_ne _ _ _ _ hne]
        using hnone
    · simpa [loadOneFrame, h] using ih c hnone

end Reliq

namespace Reliq

/-- C10: on a frame cache whose expected total is zero (freshly
constructed, cleared, or initialized with an empty list), `getProgress`
returns exactly `0` (the division by `totalCount` is guarded) and
`isFullyLoaded` returns `false`, even though
`loadedCount >= totalCount` holds vacuously. -/
theorem frameCache_zeroTotal_safe (c : FrameCache) (h : c.totalCount = 0) :
    c.totalCount ≤ c.loadedCount ∧
    c.getProgress = 0 ∧
    c.isFullyLoaded = false ∧
    FrameCache.new.totalCount = 0 ∧
    c.clear.totalCount = 0 ∧
    (c.initFrames []).totalCount = 0 := by
  refine ⟨by omega, ?_, ?_, rfl, rfl, rfl⟩
  · simp [FrameCache.getProgress, h]
  · simp [FrameCache.isFullyLoaded, h]

/-- C10 witness: the freshly constructed cache. -/
theorem frameCache_zeroTotal_safe_witness :
    FrameCache.new.totalCount = 0 ∧
    FrameCache.new.getProgress = 0 ∧ FrameCache.new.isFullyLoaded = false := by
  have h := frameCache_zeroTotal_safe FrameCache.new rfl
  exact ⟨rfl, h.2.1, h.2.2.1⟩

/-- C3 counterexample: cache initialised with frames `[1, 2]`; frame `1`
loads, frame `2` fails.  Every frame has either loaded or failed, yet
`isFullyLoaded` is `false` (the failed frame was never counted), refuting
the claim that the failed frame is counted toward the loaded total so
that `isFullyLoaded` eventually returns true. -/
theorem loadFrames_failed_counterexample :
    (loadAnimationFrames FrameCache.new [1, 2] (fun f => f == 1)
        (fun _ => ⟨some [], 0, 0⟩)).isFullyLoaded = false ∧
    (loadAnimationFrames FrameCache.new [1, 2] (fun f => f == 1)
        (fun _ => ⟨some [], 0, 0⟩)).loadedCount = 1 ∧
    (loadAnimationFrames FrameCache.new [1, 2] (fun f => f == 1)
        (fun _ => ⟨some [], 0, 0⟩)).totalCount = 2 := by
  decide

/-- C3 (amended): a frame whose source fails to load is *not* counted
toward the loaded total — `loadedCount` counts exactly the successful
frames — so after every frame has either loaded or failed,
`isFullyLoaded` returns `false` whenever any frame failed (overall
loading still completes because the error handler resolves its promise);
a subsequent `getFrame` on the failed frame id yields the missing
result. -/
theorem loadFrames_failed_not_counted (cache : FrameCache) (frames : List ℕ)
    (outcome : ℕ → Bool) (raster : ℕ → PixelData) (f0 : ℕ)
    (hmem : f0 ∈ frames) (hfail : outcome f0 = false) :
    (loadAnimationFrames cache frames outcome raster).loadedCount
        = frames.countP outcome ∧
    (loadAnimationFrames cache frames outcome raster).loadedCount
        < (loadAnimationFrames cache frames outcome raster).totalCount ∧
    (loadAnimationFrames cache frames outcome raster).isFullyLoaded = false ∧
    (loadAnimationFrames cache frames outcome raster).getFrame f0 = none := by
  have hcount : (loadAnimationFrames cache frames outcome raster).loadedCount
      = frames.countP outcome := by
    simp [loadAnimationFrames, loadFold_loadedCount, FrameCache.initFrames]
  have htotal : (loadAnimationFrames cache frames outcome raster).totalCount
      = frames.length := by
    simp [loadAnimationFrames, loadFold_totalCount, FrameCache.initFrames]
  have hlt : frames.countP outcome < frames.length := by
    refine lt_of_le_of_ne (List.countP_le_length _) ?_
    intro he
    have := List.countP_eq_length.mp he f0 hmem
    simp [hfail] at this
  refine ⟨hcount, ?_, ?_, ?_⟩
  · rw [hcount, htotal]; exact hlt
  · have : ¬ (loadAnimationFrames cache frames outcome raster).totalCount
        ≤ (loadAnimationFrames cache frames outcome raster).loadedCount := by
      rw [hcount, htotal]; omega
    simp [FrameCache.isFullyLoaded, this]
  · show mapGet _ f0 = none
    simpa [loadAnimationFrames] using
      loadFold_getFrame_failed outcome raster frames
        (cache.initFrames frames) f0 hfail (by simp [FrameCache.initFrames, mapGet])

/-! ## FadeEffect (src/effects/ScatterEffect.js, FadeEffect class)

Clock readings (`performance.now()`) are explicit `ℚ` inputs. -/

structure FadeConfig where
  enabled : Option Bool
  duration_ms : Option ℚ

structure FadeEffect where
  enabled : Bool
  duration : ℚ
  startTime : Option ℚ
  opacity : ℚ
  active : Bool

/-- `new FadeEffect(config)`: `enabled = config.enabled || false`,
`duration = config.duration_ms || 1000`. -/
def mkFadeEffect (cfg : FadeConfig) : FadeEffect :=
  { enabled := cfg.enabled.getD false
    duration := jsOrQ cfg.duration_ms 1000
    startTime := none
    opacity := 1
    active := false }

/-- `FadeEffect.startFadeOut()`: no-op when disabled, else record the
start time, set opacity to `1`, and activate. -/
def FadeEffect.startFadeOut (s : FadeEffect) (now : ℚ) : FadeEffect :=
  if s.enabled = false then s
  else { s with startTime := some now, opacity := 1, active := true }

/-- `FadeEffect.update()`: returns the new state and the boolean result
(`progress >= 1`).  A `null` start time coerces to `0` in JS arithmetic. -/
def FadeEffect.update (s : FadeEffect) (now : ℚ) : FadeEffect × Bool :=
  if s.enabled = false ∨ s.active = false then (s, false)
  else
    let elapsed := now - s.startTime.getD 0
    let progress := min (elapsed / s.duration) 1
    ({ s with opacity := 1 - progress }, decide (1 ≤ progress))

/-- `FadeEffect.getCurrentOpacity()`. -/
def FadeEffect.getCurrentOpacity (s : FadeEffect) : ℚ :=
  s.opacity

/-- C5 counterexample: an enabled fade of duration 1000 started at time
0 returns the completion signal from the update at time 1000 *and again*
from the update at time 2000 — the signal is not returned exactly once. -/
theorem fadeEffect_signal_twice_counterexample :
    (((mkFadeEffect ⟨some true, some 1000⟩).startFadeOut 0).update 1000).2 = true ∧
    ((((mkFadeEffect ⟨some true, some 1000⟩).startFadeOut 0).update 1000).1.update
      2000).2 = true := by
  constructor
  · norm_num [mkFadeEffect, FadeEffect.startFadeOut, FadeEffect.update, jsOrQ]
  · norm_num [mkFadeEffect, FadeEffect.startFadeOut, FadeEffect.update, jsOrQ]

/-- C5 (amended): for an enabled fade, the opacity is exactly `1` at
trigger time; each subsequent update sets
`opacity = 1 - min(elapsed/duration, 1)`, so opacity is strictly
decreasing until it reaches exactly `0` at `elapsed = duration`; the
update function returns the completion signal at every update at or past
the full duration and never before — the signal repeats on later updates
(it is not emitted exactly once). -/
theorem fadeEffect_fade_profile (s : FadeEffect) (t0 : ℚ)
    (he : s.enabled = true) (hd : 0 < s.duration) :
    (s.startFadeOut t0).opacity = 1 ∧
    (∀ now, ((s.startFadeOut t0).update now).1.opacity
        = 1 - min ((now - t0) / s.duration) 1) ∧
    (∀ n1 n2, n1 < n2 → n2 - t0 ≤ s.duration →
      ((s.startFadeOut t0).update n2).1.opacity
        < ((s.startFadeOut t0).update n1).1.opacity) ∧
    ((s.startFadeOut t0).update (t0 + s.duration)).1.opacity = 0 ∧
    (∀ now, now - t0 < s.duration → ((s.startFadeOut t0).update now).2 = false) ∧
    (∀ now, s.duration ≤ now - t0 → ((s.startFadeOut t0).update now).2 = true) ∧
    (∀ n1 n2, s.duration ≤ n2 - t0 →
      ((((s.startFadeOut t0).update n1).1).update n2).2 = true) := by
  have hne : s.enabled ≠ false := by simp [he]
  have hstart : s.startFadeOut t0
      = { s with startTime := some t0, opacity := 1, active := true } := by
    simp [FadeEffect.startFadeOut, hne]
  have hupd : ∀ now, ((s.startFadeOut t0).update now).1.opacity
      = 1 - min ((now - t0) / s.duration) 1 := by
    intro now
    simp [hstart, FadeEffect.update, hne]
  have hsig : ∀ now, ((s.startFadeOut t0).update now).2
      = decide (1 ≤ min ((now - t0) / s.duration) 1) := by
    intro now
    simp [hstart, FadeEffect.update, hne]
  have hdne : s.duration ≠ 0 := ne_of_gt hd
  refine ⟨by simp [hstart], hupd, ?_, ?_, ?_, ?_, ?_⟩
  · intro n1 n2 h12 hle
    rw [hupd n1, hupd n2]
    have h2 : (n2 - t0) / s.duration ≤ 1 := by
      rw [div_le_one hd]; linarith
    have h1 : (n1 - t0) / s.duration < (n2 - t0) / s.duration :=
      (div_lt_div_iff₀ hd hd).mpr (mul_lt_mul_of_pos_right (by linarith) hd)
    rw [min_eq_left h2, min_eq_left (le_of_lt (lt_of_lt_of_le h1 h2))]
    linarith
  · rw [hupd]
    have harg : t0 + s.duration - t0 = s.duration := by ring
    rw [harg, div_self hdne]
    norm_num
  · intro now hbefore
    rw [hsig]
    have h1 : (now - t0) / s.duration < 1 := by
      rw [div_lt_one hd]; linarith
    rw [min_eq_left (le_of_lt h1)]
    simpa using not_le_of_lt h1
  · intro now hpast
    rw [hsig]
    have h1 : (1 : ℚ) ≤ (now - t0) / s.duration := by
      rw [le_div_iff₀ hd]; linarith
    rw [min_eq_right h1]
    simp
  · intro n1 n2 hpast
    have h1 : (1 : ℚ) ≤ (n2 - t0) / s.duration := by
      rw [le_div_iff₀ hd]; linarith
    have hq : ((s.startFadeOut t0).update n1).1
        = { s with startTime := some t0, active := true
                   opacity := 1 - min ((n1 - t0) / s.duration) 1 } := by
      simp [hstart, FadeEffect.update, hne]
    rw [hq]
    simp [FadeEffect.update, hne, min_eq_right h1]

/-- C5 witness: enabled fade of duration 1000 triggered at time 0 —
opacity `1` at trigger, `0` at the full duration, no signal at time 500,
signal at time 1000. -/
theorem fadeEffect_fade_profile_witness :
    (mkFadeEffect ⟨some true, some 1000⟩).enabled = true ∧
    (0 : ℚ) < (mkFadeEffect ⟨some true, some 1000⟩).duration ∧
    ((mkFadeEffect ⟨some true, some 1000⟩).startFadeOut 0).opacity = 1 ∧
    (((mkFadeEffect ⟨some true, some 1000⟩).startFadeOut 0).update
      (0 + (mkFadeEffect ⟨some true, some 1000⟩).duration)).1.opacity = 0 ∧
    (((mkFadeEffect ⟨some true, some 1000⟩).startFadeOut 0).update 500).2 = false ∧
    (((mkFadeEffect ⟨some true, some 1000⟩).startFadeOut 0).update 1000).2 = true := by
  have h := fadeEffect_fade_profile (mkFadeEffect ⟨some true, some 1000⟩) 0
    (by norm_num [mkFadeEffect]) (by norm_num [mkFadeEffect, jsOrQ])
  refine ⟨by norm_num [mkFadeEffect], by norm_num [mkFadeEffect, jsOrQ],
    h.1, h.2.2.2.1, ?_, ?_⟩
  · exact h.2.2.2.2.1 500 (by norm_num [mkFadeEffect, jsOrQ])
  · exact h.2.2.2.2.2.1 1000 (by norm_num [mkFadeEffect, jsOrQ])

/-! ## AnimationSystem frame driver (src/core/AnimationSystem.js)

The `animate` loop and `stop`.  `performance.now()` readings are `ℚ`
inputs; the recurring `requestAnimationFrame` schedule is modelled by
running `animate` on a list of successive clock readings.  Outward
`CustomEvent` dispatches are collected in an event list. -/

structure AnimConfig where
  loop : Bool
  frame_duration_ms : ℚ

structure AnimState where
  isPlaying : Bool
  currentFrame : Option ℕ
  lastFrameTime : ℚ
  hasPlayedOnce : Bool
  floatOffset : Option (ℚ × ℚ)
  deriving DecidableEq

inductive AnimEvent where
  | stopped
  | frameChanged (frame : Option ℕ) (index : ℕ)
  deriving DecidableEq

/-- JS `frames.indexOf(currentFrame)`: `-1` when absent (or when
`currentFrame` is still `null`). -/
def currentIndexOf (frames : List ℕ) (cur : Option ℕ) : ℤ :=
  match cur with
  | none => -1
  | some f =>
    match frames.findIdx? (fun x => x == f) with
    | some i => (i : ℤ)
    | none => -1

/-- `(currentIndex + 1) % frames.length` of the `animate` loop. -/
def nextIndexOf (frames : List ℕ) (cur : Option ℕ) : ℕ :=
  ((currentIndexOf frames cur + 1) % (frames.length : ℤ)).toNat

/-- `AnimationSystem.stop()`: force idle, clear the floating-offset
snapshot, dispatch `animationStopped`. -/
def animStop (s : AnimState) : AnimState × List AnimEvent :=
  ({ s with isPlaying := false, floatOffset := none }, [AnimEvent.stopped])

/-- `AnimationSystem.setFrame(frameNum)`: ignored when the frame is not
in the cache. -/
def animSetFrame (cached : List ℕ) (s : AnimState) (frameNum : ℕ) : AnimState :=
  if cached.contains frameNum then { s with currentFrame := some frameNum } else s

/-- One pass of `AnimationSystem.animate()` at clock reading `now`
(the `requestAnimationFrame` rescheduling is handled by `animateRun`). -/
def animateTick (cfg : AnimConfig) (frames cached : List ℕ) (s : AnimState)
    (now : ℚ) : AnimState × List AnimEvent :=
  if s.isPlaying = false then (s, [])
  else if cfg.frame_duration_ms ≤ now - s.lastFrameTime then
    let nextIndex := nextIndexOf frames s.currentFrame
    if cfg.loop = false ∧ nextIndex = 0 then
      animStop s
    else
      let s1 := animSetFrame cached s (frames.getD nextIndex 0)
      let s2 := { s1 with lastFrameTime := now }
      (s2, [AnimEvent.frameChanged s2.currentFrame nextIndex])
  else (s, [])

/-- The recurring animation schedule: run `animate` at each successive
clock reading, collecting dispatched events. -/
def animateRun (cfg : AnimConfig) (frames cached : List ℕ) (s : AnimState) :
    List ℚ → AnimState × List AnimEvent
  | [] => (s, [])
  | t :: ts =>
    let r1 := animateTick cfg frames cached s t
    let r2 := animateRun cfg frames cached r1.1 ts
    (r2.1, r1.2 ++ r2.2)

/-- Number of `animationStopped` dispatches in an event trace. -/
def countStopped (evs : List AnimEvent) : ℕ :=
  evs.countP (fun e => match e with | AnimEvent.stopped => true | _ => false)

theorem animateTick_not_playing (cfg : AnimConfig) (frames cached : List ℕ)
    (s : AnimState) (now : ℚ) (h : s.isPlaying = false) :
    animateTick cfg frames cached s now = (s, []) := by
  simp [animateTick, h]

theorem animateRun_not_playing (cfg : AnimConfig) (frames cached : List ℕ)
    (s : AnimState) (ts : List ℚ) (h : s.isPlaying = false) :
    animateRun cfg frames cached s ts = (s, []) := by
  induction ts with
  | nil => rfl
  | cons t ts ih =>
    simp [animateRun, animateTick_not_playing cfg frames cached s t h, ih]

/-- Case analysis for one tick: either no event, a stop (after which the
state is idle), or a frame change (still playing). -/
theorem animateTick_cases (cfg : AnimConfig) (frames cached : List ℕ)
    (s : AnimState) (now : ℚ) :
    ((animateTick cfg frames cached s now).2 = [] ∧
      (animateTick cfg frames cached s now).1 = s) ∨
    ((animateTick cfg frames cached s now).2 = [AnimEvent.stopped] ∧
      (animateTick cfg frames cached s now).1.isPlaying = false) ∨
    (∃ f i, (animateTick cfg frames cached s now).2 = [AnimEvent.frameChanged f i] ∧
      (animateTick cfg frames cached s now).1.isPlaying = s.isPlaying) := by
  by_cases h1 : s.isPlaying = false
  · left
    simp [animateTick, h1]
  · by_cases h2 : cfg.frame_duration_ms ≤ now - s.lastFrameTime
    · by_cases h3 : cfg.loop = false ∧ nextIndexOf frames s.currentFrame = 0
      · right; left
        simp [animateTick, h1, h2, h3, animStop]
      · right; right
        have hp : s.isPlaying = true := by simpa using h1
        refine ⟨(animSetFrame cached s
            (frames.getD (nextIndexOf frames s.currentFrame) 0)).currentFrame,
          nextIndexOf frames s.currentFrame, ?_, ?_⟩
        · simp [animateTick, h1, h2, h3]
        · simp only [animateTick, h1, h2, h3]
          by_cases h4 : (frames[nextIndexOf frames s.currentFrame]?).getD 0 ∈ cached
          · simp [animSetFrame, h4, hp]
          · simp [animSetFrame, h4, hp]
    · left
      simp [animateTick, h1, h2]

theorem animateRun_stopped_le_one (cfg : AnimConfig) (frames cached : List ℕ)
    (s : AnimState) (ts : List ℚ) :
    countStopped (animateRun cfg frames cached s ts).2 ≤ 1 := by
  induction ts generalizing s with
  | nil => simp [animateRun, countStopped]
  | cons t ts ih =>
    rcases animateTick_cases cfg frames cached s t with
      ⟨hev, _⟩ | ⟨hev, hidle⟩ | ⟨f, i, hev, _⟩
    · simp [animateRun, countStopped, hev, List.countP_append]
      exact ih _
    · have hrest := animateRun_not_playing cfg frames cached
        (animateTick cfg frames cached s t).1 ts hidle
      simp [animateRun, countStopped, hev, hrest, List.countP_append]
    · simp [animateRun, countStopped, hev, List.countP_append]
      exact ih _

end Reliq

namespace Reliq

/-- C6: the animation driver, on an advance that would wrap to index 0
with looping disabled, transitions to idle and emits exactly one
`animationStopped` event (any run of ticks emits at most one, and the
idle state is absorbing); a non-wrapping advance commits the new frame
and emits `animationFrameChanged`; with looping enabled no run of ticks
ever emits `animationStopped`. -/
theorem animationDriver_wrap_stops (cfg : AnimConfig) (frames cached : List ℕ)
    (s : AnimState) (now : ℚ) (ts : List ℚ) :
    (s.isPlaying = true → cfg.loop = false →
      cfg.frame_duration_ms ≤ now - s.lastFrameTime →
      nextIndexOf frames s.currentFrame = 0 →
      animateTick cfg frames cached s now
        = ({ s with isPlaying := false, floatOffset := none }, [AnimEvent.stopped])) ∧
    (s.isPlaying = true →
      cfg.frame_duration_ms ≤ now - s.lastFrameTime →
      ¬ (cfg.loop = false ∧ nextIndexOf frames s.currentFrame = 0) →
      cached.contains (frames.getD (nextIndexOf frames s.currentFrame) 0) = true →
      animateTick cfg frames cached s now
        = ({ s with
              currentFrame := some (frames.getD (nextIndexOf frames s.currentFrame) 0)
              lastFrameTime := now },
           [AnimEvent.frameChanged
              (some (frames.getD (nextIndexOf frames s.currentFrame) 0))
              (nextIndexOf frames s.currentFrame)])) ∧
    countStopped (animateRun cfg frames cached s ts).2 ≤ 1 ∧
    (cfg.loop = true → countStopped (animateRun cfg frames cached s ts).2 = 0) := by
  refine ⟨?_, ?_, animateRun_stopped_le_one cfg frames cached s ts, ?_⟩
  · intro hp hl he hw
    have hp' : ¬ s.isPlaying = false := by simp [hp]
    simp [animateTick, hp', he, hl, hw, animStop]
  · intro hp he hnw hc
    have hp' : ¬ s.isPlaying = false := by simp [hp]
    have hc' : (frames[nextIndexOf frames s.currentFrame]?).getD 0 ∈ cached := by
      have := hc
      simp [List.getD_eq_getElem?_getD] at this
      simpa using this
    simp [animateTick, hp', he, hnw, animSetFrame, hc', hp]
  · intro hl
    induction ts generalizing s with
    | nil => simp [animateRun, countStopped]
    | cons t ts ih =>
      have hnostop : ∀ s' : AnimState,
          countStopped (animateTick cfg frames cached s' t).2 = 0 := by
        intro s'
        by_cases h1 : s'.isPlaying = false
        · simp [animateTick, h1, countStopped]
        · by_cases h2 : cfg.frame_duration_ms ≤ t - s'.lastFrameTime
          · have h3 : ¬ (cfg.loop = false ∧ nextIndexOf frames s'.currentFrame = 0) := by
              simp [hl]
            simp [animateTick, h1, h2, h3, countStopped]
          · simp [animateTick, h1, h2, countStopped]
      simp [animateRun, countStopped, List.countP_append]
      constructor
      · simpa [countStopped] using hnostop s
      · simpa [countStopped] using ih _

/-- C6 witness: frames `[0,1,2]`, all cached, frame duration 100.
Playing at frame index 2, the tick at time 100 wraps and stops with one
`animationStopped`; the same four-tick schedule with looping enabled
emits no `animationStopped` at all. -/
theorem animationDriver_wrap_stops_witness :
    (animateTick ⟨false, 100⟩ [0, 1, 2] [0, 1, 2]
        ⟨true, some 2, 0, true, none⟩ 100
      = (⟨false, some 2, 0, true, none⟩, [AnimEvent.stopped])) ∧
    countStopped (animateRun ⟨true, 100⟩ [0, 1, 2] [0, 1, 2]
        ⟨true, some 0, 0, true, none⟩ [100, 200, 300, 400]).2 = 0 := by
  constructor
  · exact (animationDriver_wrap_stops ⟨false, 100⟩ [0, 1, 2] [0, 1, 2]
      ⟨true, some 2, 0, true, none⟩ 100 []).1 rfl rfl (by norm_num) (by decide)
  · exact (animationDriver_wrap_stops ⟨true, 100⟩ [0, 1, 2] [0, 1, 2]
      ⟨true, some 0, 0, true, none⟩ 0 [100, 200, 300, 400]).2.2.2 rfl

end Reliq

namespace Reliq

/-! ## CoreParticleSystem.createImageParticles (src/core/CoreParticleSystem.js)

The particle constructor also randomises velocity, friction, colour and
radius; the claims concern only the positional state, so the embedding
records `x`, `y`, `destX`, `destY`.  `Math.random()` draws for a
scrambled start position are supplied per sampled coordinate. -/

structure ParticlesCfg where
  start_scrambled : Bool

structure Canvas where
  width : ℚ
  height : ℚ

structure CParticle where
  x : ℚ
  y : ℚ
  destX : ℚ
  destY : ℚ
  deriving DecidableEq, Repr

/-- `Math.max(1, Math.round(pixelData.width / responsiveDensity))`. -/
def seedIncrement (width : ℕ) (responsiveDensity : ℚ) : ℕ :=
  (max 1 (jsRound ((width : ℚ) / responsiveDensity))).toNat

/-- The indices visited by `for (let i = 0; i < limit; i += inc)`. -/
def sampledIdx (limit : ℕ) (inc : ℕ) : List ℕ :=
  (List.range ((limit + inc - 1) / inc)).map (· * inc)

/-- The particle pushed for sampled coordinate `(i, j)`: destination is
the coordinate; the initial position is the destination when
`atDestination || !config.particles.start_scrambled`, else the random
point `(Math.random() * canvas.width, Math.random() * canvas.height)`. -/
def seedAt (cfg : ParticlesCfg) (canvas : Canvas) (rand : ℕ → ℕ → ℚ × ℚ)
    (atDestination : Bool) (i j : ℕ) : CParticle :=
  if atDestination = true ∨ cfg.start_scrambled = false then
    { x := (i : ℚ), y := (j : ℚ), destX := (i : ℚ), destY := (j : ℚ) }
  else
    { x := (rand i j).1 * canvas.width, y := (rand i j).2 * canvas.height
      destX := (i : ℚ), destY := (j : ℚ) }

/-- `CoreParticleSystem.createImageParticles(pixelData, atDestination)`:
returns the system's particle list (the old list survives an invalid
input's early return).  The alpha channel of coordinate `(i, j)` is read
at flat index `(i + j * width) * 4 + 3`, guarded by a bounds check. -/
def createImageParticles (cfg : ParticlesCfg) (canvas : Canvas)
    (responsiveDensity : ℚ) (pixelData : Option PixelData) (atDestination : Bool)
    (rand : ℕ → ℕ → ℚ × ℚ) (particles : List CParticle) : List CParticle :=
  match pixelData with
  | none => particles
  | some pd =>
    if pd.data = none ∨ pd.width = 0 ∨ pd.height = 0 then particles
    else
      (sampledIdx pd.width (seedIncrement pd.width responsiveDensity)).flatMap (fun i =>
        (sampledIdx pd.height (seedIncrement pd.width responsiveDensity)).filterMap (fun j =>
          if (i + j * pd.width) * 4 + 3 < (pd.data.getD []).length ∧
              128 < (pd.data.getD []).getD ((i + j * pd.width) * 4 + 3) 0 then
            some (seedAt cfg canvas rand atDestination i j)
          else none))

/-- Modelled from the spec (§4.3 alpha-mask sampling): the alpha byte at
sampled coordinate `(i, j)` of an RGBA buffer. -/
def specAlpha (pd : PixelData) (i j : ℕ) : ℕ :=
  (pd.data.getD []).getD (4 * (j * pd.width + i) + 3) 0

/-- Modelled from the spec (§4.3): the sampled coordinates that qualify
for a particle — alpha strictly above 128, sampled on the step grid. -/
def specSeeds (pd : PixelData) (inc : ℕ) : List (ℕ × ℕ) :=
  (sampledIdx pd.width inc).flatMap (fun i =>
    (sampledIdx pd.height inc).filterMap (fun j =>
      if 128 < specAlpha pd i j then some (i, j) else none))

theorem sampledIdx_lt (limit inc x : ℕ) (hinc : 0 < inc)
    (hx : x ∈ sampledIdx limit inc) : x < limit := by
  rcases List.mem_map.mp hx with ⟨k, hk, rfl⟩
  have hk' : k + 1 ≤ (limit + inc - 1) / inc := List.mem_range.mp hk
  have h1 : (k + 1) * inc ≤ limit + inc - 1 :=
    (Nat.le_div_iff_mul_le hinc).mp hk'
  have h1' : k * inc + inc ≤ limit + inc - 1 := by
    calc k * inc + inc = (k + 1) * inc := by ring
    _ ≤ limit + inc - 1 := h1
  generalize k * inc = m at h1' ⊢
  omega

/-- C9: when `createImageParticles` is called with invalid pixel data
(null buffer, or missing `data`, `width`, or `height`), it returns
without modifying the particle collection. -/
theorem createImageParticles_invalid_unchanged (cfg : ParticlesCfg)
    (canvas : Canvas) (responsiveDensity : ℚ) (pixelData : Option PixelData)
    (atDestination : Bool) (rand : ℕ → ℕ → ℚ × ℚ) (particles : List CParticle)
    (h : pixelData = none ∨ ∃ pd, pixelData = some pd ∧
      (pd.data = none ∨ pd.width = 0 ∨ pd.height = 0)) :
    createImageParticles cfg canvas responsiveDensity pixelData atDestination
      rand particles = particles := by
  rcases h with h | ⟨pd, rfl, hbad⟩
  · subst h; rfl
  · simp [createImageParticles, hbad]

/-- C9 witness: a buffer with a missing `data` field leaves a seeded
collection untouched. -/
theorem createImageParticles_invalid_unchanged_witness :
    ((some (⟨none, 5, 5⟩ : PixelData) = none ∨
      ∃ pd, some (⟨none, 5, 5⟩ : PixelData) = some pd ∧
        (pd.data = none ∨ pd.width = 0 ∨ pd.height = 0)) ∧
    createImageParticles ⟨true⟩ ⟨10, 10⟩ 1 (some ⟨none, 5, 5⟩) false
      (fun _ _ => (0, 0)) [⟨1, 2, 3, 4⟩] = [⟨1, 2, 3, 4⟩]) := by
  refine ⟨Or.inr ⟨⟨none, 5, 5⟩, rfl, Or.inl rfl⟩, ?_⟩
  exact createImageParticles_invalid_unchanged ⟨true⟩ ⟨10, 10⟩ 1
    (some ⟨none, 5, 5⟩) false (fun _ _ => (0, 0)) [⟨1, 2, 3, 4⟩]
    (Or.inr ⟨⟨none, 5, 5⟩, rfl, Or.inl rfl⟩)

/-- C2 counterexample: a valid 1×1 fully-opaque buffer, `atDestination`
false, configuration `start_scrambled: false`, render surface 10×10 and
random draw `(1/2, 1/2)`.  The claim places the particle at the random
point `(5, 5)`; the code places it at its destination `(0, 0)`. -/
theorem createImageParticles_scrambled_counterexample :
    createImageParticles ⟨false⟩ ⟨10, 10⟩ 1 (some ⟨some [0, 0, 0, 255], 1, 1⟩)
      false (fun _ _ => (1 / 2, 1 / 2)) [] = [⟨0, 0, 0, 0⟩] ∧
    ((1 : ℚ) / 2) * 10 ≠ 0 := by
  constructor
  · norm_num [createImageParticles, seedIncrement, jsRound, sampledIdx, seedAt,
      List.range_succ, List.filterMap_cons, Option.some_ne_none]
  · norm_num

/-- C2 (amended): on a valid RGBA buffer, `createImageParticles` seeds
exactly one particle per sampled coordinate `(i, j)` — stepped by
`step = max(1, round(width / responsiveDensity))` — whose alpha byte
exceeds 128, destination equal to that coordinate (the implementation's
flat-index bounds check never fires on a valid buffer); the initial
position equals the destination when `atDestination` is requested *or*
the configuration's `start_scrambled` is disabled, and otherwise it is
the random point `(r₁·width, r₂·height)` inside the render surface. -/
theorem createImageParticles_seeds_spec (cfg : ParticlesCfg) (canvas : Canvas)
    (responsiveDensity : ℚ) (pd : PixelData) (atDestination : Bool)
    (rand : ℕ → ℕ → ℚ × ℚ) (particles : List CParticle) (d : List ℕ)
    (hd : pd.data = some d) (hlen : d.length = 4 * pd.width * pd.height)
    (hw : 0 < pd.width) (hh : 0 < pd.height) :
    createImageParticles cfg canvas responsiveDensity (some pd) atDestination
        rand particles
      = (specSeeds pd (seedIncrement pd.width responsiveDensity)).map
          (fun c => seedAt cfg canvas rand atDestination c.1 c.2) ∧
    (∀ i j, (atDestination = true ∨ cfg.start_scrambled = false) →
      seedAt cfg canvas rand atDestination i j
        = { x := (i : ℚ), y := (j : ℚ), destX := (i : ℚ), destY := (j : ℚ) }) ∧
    (∀ i j, atDestination = false → cfg.start_scrambled = true →
      seedAt cfg canvas rand atDestination i j
        = { x := (rand i j).1 * canvas.width, y := (rand i j).2 * canvas.height
            destX := (i : ℚ), destY := (j : ℚ) }) := by
  have hincpos : 0 < seedIncrement pd.width responsiveDensity := by
    have h1 : (1 : ℤ) ≤ max 1 (jsRound ((pd.width : ℚ) / responsiveDensity)) :=
      le_max_left _ _
    have h2 := Int.toNat_le_toNat h1
    rw [seedIncrement]
    omega
  refine ⟨?_, ?_, ?_⟩
  · have hvalid : ¬ (pd.data = none ∨ pd.width = 0 ∨ pd.height = 0) := by
      push_neg
      exact ⟨by simp [hd], by omega, by omega⟩
    show (if pd.data = none ∨ pd.width = 0 ∨ pd.height = 0 then particles
      else (sampledIdx pd.width (seedIncrement pd.width responsiveDensity)).flatMap
        (fun i => (sampledIdx pd.height (seedIncrement pd.width responsiveDensity)).filterMap
          (fun j =>
            if (i + j * pd.width) * 4 + 3 < (pd.data.getD []).length ∧
                128 < (pd.data.getD []).getD ((i + j * pd.width) * 4 + 3) 0 then
              some (seedAt cfg canvas rand atDestination i j)
            else none))) = _
    rw [if_neg hvalid]
    unfold specSeeds
    rw [List.map_flatMap]
    rw [List.flatMap_def, List.flatMap_def]
    refine congrArg List.flatten (List.map_congr_left ?_)
    intro i hi
    rw [List.map_filterMap]
    refine List.filterMap_congr ?_
    intro j hj
    have hi' : i < pd.width := sampledIdx_lt _ _ _ hincpos hi
    have hj' : j < pd.height := sampledIdx_lt _ _ _ hincpos hj
    have hflat : (i + j * pd.width) * 4 + 3 = 4 * (j * pd.width + i) + 3 := by
      ring
    have hbound : j * pd.width + i < pd.width * pd.height := by
      calc j * pd.width + i < j * pd.width + pd.width := by omega
      _ = (j + 1) * pd.width := by ring
      _ ≤ pd.height * pd.width := Nat.mul_le_mul_right _ (by omega)
      _ = pd.width * pd.height := Nat.mul_comm _ _
    have hlen' : d.length = 4 * (pd.width * pd.height) := by
      rw [hlen]; ring
    have hidx : (i + j * pd.width) * 4 + 3 < d.length := by
      rw [hlen', hflat]
      generalize j * pd.width + i = m at hbound ⊢
      generalize pd.width * pd.height = a at hbound ⊢
      omega
    have halpha : specAlpha pd i j = d.getD ((i + j * pd.width) * 4 + 3) 0 := by
      rw [specAlpha, hd, Option.getD_some, hflat]
    rw [hd, Option.getD_some]
    by_cases hcond : 128 < d.getD ((i + j * pd.width) * 4 + 3) 0
    · rw [if_pos ⟨hidx, hcond⟩, if_pos (by rw [halpha]; exact hcond)]
      rfl
    · rw [if_neg (by intro hc; exact hcond hc.2), if_neg (by rw [halpha]; exact hcond)]
      rfl
  · intro i j h
    simp [seedAt, h]
  · intro i j h1 h2
    have : ¬ (atDestination = true ∨ cfg.start_scrambled = false) := by
      simp [h1, h2]
    simp [seedAt, this]

/-- C2 witness: a 2×1 buffer whose first sampled pixel is opaque and the
second transparent, with `start_scrambled` enabled, scrambled start, and
random draws `(1/2, 1/4)` on a 10×20 surface. -/
theorem createImageParticles_seeds_spec_witness :
    ((⟨some [0, 0, 0, 255, 0, 0, 0, 0], 2, 1⟩ : PixelData).data
        = some [0, 0, 0, 255, 0, 0, 0, 0] ∧
      ([0, 0, 0, 255, 0, 0, 0, 0] : List ℕ).length = 4 * 2 * 1) ∧
    createImageParticles ⟨true⟩ ⟨10, 20⟩ 2
        (some ⟨some [0, 0, 0, 255, 0, 0, 0, 0], 2, 1⟩) false
        (fun _ _ => (1 / 2, 1 / 4)) []
      = (specSeeds ⟨some [0, 0, 0, 255, 0, 0, 0, 0], 2, 1⟩
          (seedIncrement 2 2)).map
          (fun c => seedAt ⟨true⟩ ⟨10, 20⟩ (fun _ _ => (1 / 2, 1 / 4)) false c.1 c.2) ∧
    seedAt ⟨true⟩ ⟨10, 20⟩ (fun _ _ => (1 / 2, 1 / 4)) false 0 0
      = { x := 1 / 2 * 10, y := 1 / 4 * 20, destX := 0, destY := 0 } := by
  have h := createImageParticles_seeds_spec ⟨true⟩ ⟨10, 20⟩ 2
    ⟨some [0, 0, 0, 255, 0, 0, 0, 0], 2, 1⟩ false (fun _ _ => (1 / 2, 1 / 4)) []
    [0, 0, 0, 255, 0, 0, 0, 0] rfl (by norm_num) (by norm_num) (by norm_num)
  refine ⟨⟨rfl, by norm_num⟩, h.1, ?_⟩
  have := h.2.2 0 0 rfl rfl
  simpa using this

/-! ## InteractionManager.applyRepulsion (src/interaction/InteractionManager.js)

Geometry goes through `Math.sqrt`, so this part of the embedding lives in
`ℝ`.  Optional numeric configuration fields use JS truthiness (`0` and a
missing field both select the default). -/

/-- JS `v || d` for an optional real-valued field. -/
noncomputable def jsOrR (v : Option ℝ) (d : ℝ) : ℝ :=
  match v with
  | none => d
  | some x => if x = 0 then d else x

/-- JS `v || d` for an optional string field (`""` is falsy). -/
def jsOrS (v : Option String) (d : String) : String :=
  match v with
  | none => d
  | some s => if s = "" then d else s

/-- The `switch (forceCurve)` of `applyRepulsion`: `top_heavy` is
`1 - (1 - fraction)^2`, `bottom_heavy` is `fraction^2`, and `linear`
(and any other value, via the `default` arm) is the fraction itself. -/
noncomputable def forceMultiplier (forceCurve : String) (fraction : ℝ) : ℝ :=
  if forceCurve = "top_heavy" then 1 - (1 - fraction) ^ 2
  else if forceCurve = "bottom_heavy" then fraction ^ 2
  else fraction

/-- C8: the three repulsion force curves satisfy `linear(f) = f`,
`top_heavy(f) = 1 - (1-f)^2`, `bottom_heavy(f) = f^2`; all three are `0`
at fraction `0` and `1` at fraction `1`, and strictly between the
endpoints they are strictly ordered `top_heavy > linear > bottom_heavy`. -/
theorem forceMultiplier_linear (f : ℝ) : forceMultiplier "linear" f = f := by
  have h1 : ("linear" : String) ≠ "top_heavy" := by decide
  have h2 : ("linear" : String) ≠ "bottom_heavy" := by decide
  simp [forceMultiplier, h1, h2]

theorem forceMultiplier_top (f : ℝ) :
    forceMultiplier "top_heavy" f = 1 - (1 - f) ^ 2 := by
  simp [forceMultiplier]

theorem forceMultiplier_bottom (f : ℝ) :
    forceMultiplier "bottom_heavy" f = f ^ 2 := by
  have h1 : ("bottom_heavy" : String) ≠ "top_heavy" := by decide
  simp [forceMultiplier, h1]

theorem forceCurves_spec (f : ℝ) :
    forceMultiplier "linear" f = f ∧
    forceMultiplier "top_heavy" f = 1 - (1 - f) ^ 2 ∧
    forceMultiplier "bottom_heavy" f = f ^ 2 ∧
    forceMultiplier "linear" 0 = 0 ∧
    forceMultiplier "top_heavy" 0 = 0 ∧
    forceMultiplier "bottom_heavy" 0 = 0 ∧
    forceMultiplier "linear" 1 = 1 ∧
    forceMultiplier "top_heavy" 1 = 1 ∧
    forceMultiplier "bottom_heavy" 1 = 1 ∧
    (0 < f → f < 1 →
      forceMultiplier "top_heavy" f > forceMultiplier "linear" f ∧
      forceMultiplier "linear" f > forceMultiplier "bottom_heavy" f) := by
  refine ⟨forceMultiplier_linear f, forceMultiplier_top f, forceMultiplier_bottom f,
    by rw [forceMultiplier_linear], by rw [forceMultiplier_top]; norm_num,
    by rw [forceMultiplier_bottom]; norm_num, by rw [forceMultiplier_linear],
    by rw [forceMultiplier_top]; norm_num, by rw [forceMultiplier_bottom]; norm_num, ?_⟩
  intro h0 h1
  constructor
  · rw [gt_iff_lt, forceMultiplier_linear, forceMultiplier_top]
    nlinarith [mul_pos h0 (sub_pos.mpr h1)]
  · rw [gt_iff_lt, forceMultiplier_linear, forceMultiplier_bottom]
    nlinarith [mul_pos h0 (sub_pos.mpr h1)]

/-- The positional/physics state of a particle as `applyRepulsion` sees
it (`Date.now()` timestamps are `ℝ` inputs; a `repulse_start_time` of
`none` models the initial `null`/`undefined`). -/
structure IParticle where
  x : ℝ
  y : ℝ
  destX : ℝ
  destY : ℝ
  vx : ℝ
  vy : ℝ
  accX : ℝ
  accY : ℝ
  repulse_start_time : Option ℝ

structure RepulseArgs where
  detection_radius : Option ℝ
  max_displacement : Option ℝ
  repulse_duration : Option ℝ
  force_curve : Option String

/-- The cached interaction state consumed by `applyRepulsion`. -/
structure PointerState where
  mouseX : Option ℝ
  mouseY : Option ℝ
  touchX : Option ℝ
  touchY : Option ℝ

/-- The repulse timer after the `if (!particle.repulse_start_time)`
initialisation: a falsy timer (`null` or `0`) is (re)set to `Date.now()`. -/
noncomputable def repulseStartTime (p : IParticle) (now : ℝ) : ℝ :=
  if p.repulse_start_time = none ∨ p.repulse_start_time = some 0 then now
  else p.repulse_start_time.getD 0

/-- `elapsed_fraction = min(elapsed_ms / (repulseDuration * 1000), 1)`
with `elapsed_ms = Date.now() - particle.repulse_start_time` after the
timer initialisation. -/
noncomputable def repulseElapsedFraction (p : IParticle) (args : RepulseArgs)
    (now : ℝ) : ℝ :=
  min ((now - repulseStartTime p now) / (jsOrR args.repulse_duration 0.1 * 1000)) 1

open Classical in
/-- `InteractionManager.applyRepulsion(particle, args, state)` at clock
reading `now`: touch position wins over mouse, a `null` pointer or a
coincident pointer is a no-op; within the detection radius and under the
displacement cap, the timer ramps a force (scaled by the curve
multiplier and the remaining-displacement factor) into the velocity via
the acceleration while `elapsed_fraction < 0.8`; outside the radius the
timer is cleared. -/
noncomputable def applyRepulsion (p : IParticle) (args : RepulseArgs)
    (state : PointerState) (now : ℝ) : IParticle :=
  match state.touchX.orElse (fun _ => state.mouseX),
      state.touchY.orElse (fun _ => state.mouseY) with
  | some x, some y =>
    if Real.sqrt ((p.x - x) * (p.x - x) + (p.y - y) * (p.y - y)) = 0 then p
    else if Real.sqrt ((p.x - x) * (p.x - x) + (p.y - y) * (p.y - y))
        ≤ jsOrR args.detection_radius 100 then
      if Real.sqrt ((p.x - p.destX) * (p.x - p.destX) + (p.y - p.destY) * (p.y - p.destY))
          < jsOrR args.max_displacement 0.5 then
        if repulseElapsedFraction p args now < 0.8 then
          { p with
            repulse_start_time := some (repulseStartTime p now)
            accX := (p.x - x) / Real.sqrt ((p.x - x) * (p.x - x) + (p.y - y) * (p.y - y))
              * (2 * jsOrR args.max_displacement 0.5 / jsOrR args.repulse_duration 0.1 ^ 2
                * forceMultiplier (jsOrS args.force_curve "linear")
                    (repulseElapsedFraction p args now)
                * max 0 (1 - Real.sqrt ((p.x - p.destX) * (p.x - p.destX)
                    + (p.y - p.destY) * (p.y - p.destY)) / jsOrR args.max_displacement 0.5))
              * 0.01
            accY := (p.y - y) / Real.sqrt ((p.x - x) * (p.x - x) + (p.y - y) * (p.y - y))
              * (2 * jsOrR args.max_displacement 0.5 / jsOrR args.repulse_duration 0.1 ^ 2
                * forceMultiplier (jsOrS args.force_curve "linear")
                    (repulseElapsedFraction p args now)
                * max 0 (1 - Real.sqrt ((p.x - p.destX) * (p.x - p.destX)
                    + (p.y - p.destY) * (p.y - p.destY)) / jsOrR args.max_displacement 0.5))
              * 0.01
            vx := p.vx + (p.x - x) / Real.sqrt ((p.x - x) * (p.x - x) + (p.y - y) * (p.y - y))
              * (2 * jsOrR args.max_displacement 0.5 / jsOrR args.repulse_duration 0.1 ^ 2
                * forceMultiplier (jsOrS args.force_curve "linear")
                    (repulseElapsedFraction p args now)
                * max 0 (1 - Real.sqrt ((p.x - p.destX) * (p.x - p.destX)
                    + (p.y - p.destY) * (p.y - p.destY)) / jsOrR args.max_displacement 0.5))
              * 0.01
            vy := p.vy + (p.y - y) / Real.sqrt ((p.x - x) * (p.x - x) + (p.y - y) * (p.y - y))
              * (2 * jsOrR args.max_displacement 0.5 / jsOrR args.repulse_duration 0.1 ^ 2
                * forceMultiplier (jsOrS args.force_curve "linear")
                    (repulseElapsedFraction p args now)
                * max 0 (1 - Real.sqrt ((p.x - p.destX) * (p.x - p.destX)
                    + (p.y - p.destY) * (p.y - p.destY)) / jsOrR args.max_displacement 0.5))
              * 0.01 }
        else { p with repulse_start_time := some (repulseStartTime p now) }
      else p
    else { p with repulse_start_time := none }
  | _, _ => p

/-- C1: once the elapsed fraction of the repulse duration reaches `0.8`,
`applyRepulsion` applies exactly zero force — velocity and acceleration
are unchanged — for every particle, pointer state, and repulse
configuration (hence for all three force-curve types); equivalently, a
nonzero force is applied only while the fraction is strictly below
`0.8`. -/
theorem applyRepulsion_cutoff (p : IParticle) (args : RepulseArgs)
    (state : PointerState) (now : ℝ)
    (h : 0.8 ≤ repulseElapsedFraction p args now) :
    (applyRepulsion p args state now).vx = p.vx ∧
    (applyRepulsion p args state now).vy = p.vy ∧
    (applyRepulsion p args state now).accX = p.accX ∧
    (applyRepulsion p args state now).accY = p.accY := by
  have hnlt : ¬ repulseElapsedFraction p args now < 0.8 := not_lt.mpr h
  unfold applyRepulsion
  rcases hx : state.touchX.orElse (fun _ => state.mouseX) with _ | x
  · simp
  · rcases hy : state.touchY.orElse (fun _ => state.mouseY) with _ | y
    · simp
    · by_cases h1 : Real.sqrt ((p.x - x) * (p.x - x) + (p.y - y) * (p.y - y)) = 0
      · simp [h1]
      · by_cases h2 : Real.sqrt ((p.x - x) * (p.x - x) + (p.y - y) * (p.y - y))
            ≤ jsOrR args.detection_radius 100
        · by_cases h3 : Real.sqrt ((p.x - p.destX) * (p.x - p.destX)
              + (p.y - p.destY) * (p.y - p.destY)) < jsOrR args.max_displacement 0.5
          · simp [h1, h2, h3, hnlt]
          · simp [h1, h2, h3]
        · simp [h1, h2]

/-- C1 witness: particle at its destination, pointer at distance 5,
timer started at 1 and clock 1000 with the default 0.1 s duration —
fraction `min(9990/1000, 1) = 1 ≥ 0.8` — leaves velocity and
acceleration unchanged. -/
theorem applyRepulsion_cutoff_witness :
    0.8 ≤ repulseElapsedFraction ⟨3, 4, 3, 4, 7, 8, 9, 10, some 1⟩
        ⟨none, none, none, none⟩ 1000 ∧
    (applyRepulsion ⟨3, 4, 3, 4, 7, 8, 9, 10, some 1⟩ ⟨none, none, none, none⟩
        ⟨some 0, some 0, none, none⟩ 1000).vx
      = (⟨3, 4, 3, 4, 7, 8, 9, 10, some 1⟩ : IParticle).vx ∧
    (applyRepulsion ⟨3, 4, 3, 4, 7, 8, 9, 10, some 1⟩ ⟨none, none, none, none⟩
        ⟨some 0, some 0, none, none⟩ 1000).accX
      = (⟨3, 4, 3, 4, 7, 8, 9, 10, some 1⟩ : IParticle).accX := by
  have hfrac : repulseElapsedFraction ⟨3, 4, 3, 4, 7, 8, 9, 10, some 1⟩
      ⟨none, none, none, none⟩ 1000 = 1 := by
    have ht : repulseStartTime ⟨3, 4, 3, 4, 7, 8, 9, 10, some 1⟩ 1000 = 1 := by
      simp [repulseStartTime]
    rw [repulseElapsedFraction, ht]
    rw [show jsOrR (none : Option ℝ) 0.1 = 0.1 from rfl]
    rw [min_eq_right (by norm_num)]
  have h8 : (0.8 : ℝ) ≤ repulseElapsedFraction ⟨3, 4, 3, 4, 7, 8, 9, 10, some 1⟩
      ⟨none, none, none, none⟩ 1000 := by
    rw [hfrac]; norm_num
  have h := applyRepulsion_cutoff ⟨3, 4, 3, 4, 7, 8, 9, 10, some 1⟩
    ⟨none, none, none, none⟩ ⟨some 0, some 0, none, none⟩ 1000 h8
  exact ⟨h8, h.1, h.2.2.1⟩

/-- C8 witness: fraction `1/2` — curve values `3/4`, `1/2`, `1/4`. -/
theorem forceCurves_spec_witness :
    ((0 : ℝ) < 1 / 2 ∧ (1 : ℝ) / 2 < 1) ∧
    forceMultiplier "top_heavy" (1 / 2) > forceMultiplier "linear" (1 / 2) ∧
    forceMultiplier "linear" (1 / 2) > forceMultiplier "bottom_heavy" (1 / 2) := by
  refine ⟨⟨by norm_num, by norm_num⟩, ?_⟩
  exact (forceCurves_spec (1 / 2)).2.2.2.2.2.2.2.2.2 (by norm_num) (by norm_num)

/-! ## ScatterEffect (src/effects/ScatterEffect.js)

The particles handed to the effect are the `Particle`/`SecondaryParticle`
instances of the two particle systems.  Those classes store their
destination in `destX`/`destY`; `ScatterEffect` reads and writes
`dest_x`/`dest_y`, properties that do not exist on either class (JS
silently yields `undefined` and creates them on write), so the embedding
carries both: `destX`/`destY` (the destination the physics update seeks)
and the optional `dest_x`/`dest_y` the effect touches.  `Math.random()`
draws (scatter angle, fresh friction) are explicit inputs. -/

structure SParticle where
  x : ℝ
  y : ℝ
  vx : ℝ
  vy : ℝ
  friction : ℝ
  destX : ℝ
  destY : ℝ
  dest_x : Option ℝ
  dest_y : Option ℝ
  isScattered : Bool
  isSecondary : Bool

structure ScatterEffect where
  force : ℝ
  isScattered : Bool
  originalPositions : List (ℝ × ℝ)

/-- `new ScatterEffect(config)`: `force = config.scatter.force || 3`. -/
noncomputable def mkScatterEffect (cfgForce : Option ℝ) : ScatterEffect :=
  { force := jsOrR cfgForce 3, isScattered := false, originalPositions := [] }

/-- The per-particle snapshot taken by `scatterParticles`:
`{ x: particle.dest_x || particle.x, y: particle.dest_y || particle.y }`. -/
noncomputable def snapshotOf (p : SParticle) : ℝ × ℝ :=
  (jsOrR p.dest_x p.x, jsOrR p.dest_y p.y)

/-- The per-particle body of `scatterParticles` at scatter angle
`angle`: writes the new `dest_x`/`dest_y`, the scatter velocity, the
lowered friction `0.85`, and the scattered flag. -/
noncomputable def scatterOne (force : ℝ) (angle : ℝ) (p : SParticle) : SParticle :=
  { p with
    dest_x := some (p.x + Real.cos angle * (force * (if p.isSecondary then 25 else 30)))
    dest_y := some (p.y + Real.sin angle * (force * (if p.isSecondary then 25 else 30)))
    vx := Real.cos angle * (if p.isSecondary then force * 0.8 else force)
    vy := Real.sin angle * (if p.isSecondary then force * 0.8 else force)
    friction := 0.85
    isScattered := true }

/-- `ScatterEffect.scatterParticles(particles)`: snapshot the original
positions when not already scattered (the JS `Map` keyed by particle
identity becomes a list parallel to the particle list), then scatter
every particle with its random angle. -/
noncomputable def scatterParticles (eff : ScatterEffect) (ps : List SParticle)
    (angles : ℕ → ℝ) : ScatterEffect × List SParticle :=
  ({ eff with
      isScattered := true
      originalPositions :=
        if eff.isScattered = false then ps.map snapshotOf else eff.originalPositions },
   ps.enum.map (fun e => scatterOne eff.force (angles e.1) e.2))

/-- `ScatterEffect.shouldReturn(particle)`. -/
noncomputable def shouldReturn (p : SParticle) : Prop :=
  p.isScattered = true ∧ Real.sqrt (p.vx * p.vx + p.vy * p.vy) < 0.1

/-- `ScatterEffect.returnParticle(particle)` with the particle's map
entry `orig` and the fresh friction draw `r`. -/
noncomputable def returnParticle (orig : Option (ℝ × ℝ)) (r : ℝ)
    (p : SParticle) : SParticle :=
  match orig with
  | none => p
  | some o =>
    { p with dest_x := some o.1, dest_y := some o.2
             friction := r * 0.01 + 0.92, isScattered := false }

/-- C4: the scatter/return round trip is broken by a field-name
mismatch.  For the particle at `(5, 3)` with destination `(40, 7)` (as
built by `CoreParticleSystem`, where `dest_x`/`dest_y` do not exist):
scattering at angle `0` leaves the particle's actual destination
`destX = 40` unchanged (only the unused `dest_x` is written), the
snapshot records the *position* `(5, 3)` — not the destination
`(40, 7)` — because `particle.dest_x || particle.x` falls back for the
undefined field, and returning restores that snapshot into `dest_x`,
never touching `destX`. -/
theorem scatterEffect_field_mismatch :
    ((scatterParticles (mkScatterEffect none)
        [⟨5, 3, 0, 0, 0.93, 40, 7, none, none, false, false⟩]
        (fun _ => 0)).2.headD ⟨0, 0, 0, 0, 0, 0, 0, none, none, false, false⟩).destX = 40 ∧
    (scatterParticles (mkScatterEffect none)
        [⟨5, 3, 0, 0, 0.93, 40, 7, none, none, false, false⟩]
        (fun _ => 0)).1.originalPositions = [(5, 3)] ∧
    ((5 : ℝ), (3 : ℝ)) ≠ ((40 : ℝ), (7 : ℝ)) ∧
    (returnParticle (some (5, 3)) 0
      ((scatterParticles (mkScatterEffect none)
          [⟨5, 3, 0, 0, 0.93, 40, 7, none, none, false, false⟩]
          (fun _ => 0)).2.headD ⟨0, 0, 0, 0, 0, 0, 0, none, none, false, false⟩)).destX = 40 ∧
    (returnParticle (some (5, 3)) 0
      ((scatterParticles (mkScatterEffect none)
          [⟨5, 3, 0, 0, 0.93, 40, 7, none, none, false, false⟩]
          (fun _ => 0)).2.headD ⟨0, 0, 0, 0, 0, 0, 0, none, none, false, false⟩)).dest_x = some 5 := by
  refine ⟨?_, ?_, ?_, ?_, ?_⟩
  · simp [scatterParticles, mkScatterEffect, scatterOne, List.enum]
  · simp [scatterParticles, mkScatterEffect, snapshotOf, jsOrR]
  · intro hcon
    have := congrArg Prod.fst hcon
    norm_num at this
  · simp [scatterParticles, mkScatterEffect, scatterOne, returnParticle, List.enum]
  · simp [scatterParticles, mkScatterEffect, scatterOne, returnParticle, List.enum]

/-! ## Secondary-particle placement (src/core/SecondaryParticleSystem.js)

`createRandomParticles` / `createAroundImageParticles`: rejection
sampling with a 50-attempt budget per particle.  Only the position of an
already-placed particle matters to `Utils.hasOverlap`, so placed
particles are modelled by their coordinates.  The responsive density is
an input (`calculateResponsiveDensity` is applied by the caller), and
`Math.random()` draws are indexed by particle and attempt. -/

structure Surface where
  width : ℝ
  height : ℝ

structure SecP where
  x : ℝ
  y : ℝ

/-- `Utils.hasOverlap(x, y, existingParticles, minSpacing)`. -/
def hasOverlap (x y : ℝ) (existing : List SecP) (minSpacing : ℝ) : Prop :=
  ∃ p ∈ existing, Real.sqrt ((x - p.x) ^ 2 + (y - p.y) ^ 2) < minSpacing

/-- One sampled candidate of `createRandomParticles`: a random angle and
a random distance inside the disk of radius
`min(width, height) * placement_radius_percentage / 200` centred on the
surface. -/
noncomputable def randomCandidate (surface : Surface) (radiusPct : Option ℝ)
    (rnd : ℝ × ℝ) : ℝ × ℝ :=
  (surface.width / 2 + Real.cos (rnd.1 * (2 * Real.pi))
      * (rnd.2 * (min surface.width surface.height * jsOrR radiusPct 100 / 200)),
   surface.height / 2 + Real.sin (rnd.1 * (2 * Real.pi))
      * (rnd.2 * (min surface.width surface.height * jsOrR radiusPct 100 / 200)))

/-- One sampled candidate of `createAroundImageParticles`: square-root
radius scaling inside
`baseRadius = min(width, height) / 2 * (1 + placement_image_buffer / 100)`. -/
noncomputable def aroundImageCandidate (surface : Surface) (bufferPct : Option ℝ)
    (rnd : ℝ × ℝ) : ℝ × ℝ :=
  (surface.width / 2 + Real.cos (rnd.1 * (2 * Real.pi))
      * (min surface.width surface.height / 2 * (1 + jsOrR bufferPct 20 / 100))
      * Real.sqrt rnd.2,
   surface.height / 2 + Real.sin (rnd.1 * (2 * Real.pi))
      * (min surface.width surface.height / 2 * (1 + jsOrR bufferPct 20 / 100))
      * Real.sqrt rnd.2)

open Classical in
/-- The `do { ... attempts++ } while (attempts < 50 && hasOverlap(...))`
loop: `gen a` is the candidate sampled on attempt `a`; returns the last
candidate and the final attempt count. -/
noncomputable def placeAttempts (existing : List SecP) (gen : ℕ → ℝ × ℝ)
    (minSpacing : ℝ) (attempts : ℕ) : (ℝ × ℝ) × ℕ :=
  if h : attempts + 1 < 50 ∧
      hasOverlap (gen attempts).1 (gen attempts).2 existing minSpacing then
    placeAttempts existing gen minSpacing (attempts + 1)
  else (gen attempts, attempts + 1)
termination_by 50 - attempts
decreasing_by
  have := h.1
  omega

/-- `particleCount = floor(density * (width * height) / 10000 *
particle_multiplier)` (shared by both placement modes). -/
noncomputable def placementCount (surface : Surface) (density : ℝ)
    (particleMultiplier : Option ℝ) : ℕ :=
  (⌊density * (surface.width * surface.height) / 10000
      * jsOrR particleMultiplier 0.075⌋).toNat

open Classical in
/-- The body of the placement `for` loop: run the attempt loop against
the particles placed so far and push the candidate only when
`attempts < 50`. -/
noncomputable def placeStep (minSpacing : ℝ) (gen : ℕ → ℕ → ℝ × ℝ)
    (acc : List SecP) (i : ℕ) : List SecP :=
  if (placeAttempts acc (gen i) minSpacing 0).2 < 50 then
    acc ++ [⟨(placeAttempts acc (gen i) minSpacing 0).1.1,
             (placeAttempts acc (gen i) minSpacing 0).1.2⟩]
  else acc

/-- `SecondaryParticleSystem.createRandomParticles()` (minSpacing is the
hard-coded `10`). -/
noncomputable def createRandomParticles (surface : Surface) (density : ℝ)
    (particleMultiplier radiusPct : Option ℝ) (rand : ℕ → ℕ → ℝ × ℝ) : List SecP :=
  (List.range (placementCount surface density particleMultiplier)).foldl
    (placeStep 10 (fun i a => randomCandidate surface radiusPct (rand i a))) []

/-- `SecondaryParticleSystem.createAroundImageParticles()`. -/
noncomputable def createAroundImageParticles (surface : Surface) (density : ℝ)
    (particleMultiplier bufferPct : Option ℝ) (rand : ℕ → ℕ → ℝ × ℝ) : List SecP :=
  (List.range (placementCount surface density particleMultiplier)).foldl
    (placeStep 10 (fun i a => aroundImageCandidate surface bufferPct (rand i a))) []

theorem placeAttempts_le (existing : List SecP) (gen : ℕ → ℝ × ℝ) (ms : ℝ) :
    ∀ n a, 50 - a ≤ n → a < 50 → (placeAttempts existing gen ms a).2 ≤ 50 := by
  intro n
  induction n with
  | zero => intro a h50 hlt; omega
  | succ n ih =>
    intro a h50 hlt
    unfold placeAttempts
    by_cases h : a + 1 < 50 ∧ hasOverlap (gen a).1 (gen a).2 existing ms
    · rw [dif_pos h]
      exact ih (a + 1) (by omega) h.1
    · rw [dif_neg h]
      omega

theorem placeAttempts_stuck (existing : List SecP) (gen : ℕ → ℝ × ℝ) (ms : ℝ)
    (hall : ∀ k, hasOverlap (gen k).1 (gen k).2 existing ms) :
    ∀ n a, 50 - a ≤ n → a < 50 → (placeAttempts existing gen ms a).2 = 50 := by
  intro n
  induction n with
  | zero => intro a h50 hlt; omega
  | succ n ih =>
    intro a h50 hlt
    unfold placeAttempts
    by_cases h : a + 1 < 50
    · rw [dif_pos ⟨h, hall a⟩]
      exact ih (a + 1) (by omega) h
    · rw [dif_neg (fun hc => h hc.1)]
      omega

theorem placeStep_length (ms : ℝ) (gen : ℕ → ℕ → ℝ × ℝ) (acc : List SecP) (i : ℕ) :
    (placeStep ms gen acc i).length ≤ acc.length + 1 := by
  unfold placeStep
  split
  · simp
  · simp

theorem foldl_placeStep_length (ms : ℝ) (gen : ℕ → ℕ → ℝ × ℝ) :
    ∀ (l : List ℕ) (acc : List SecP),
      (l.foldl (placeStep ms gen) acc).length ≤ acc.length + l.length := by
  intro l
  induction l with
  | nil => simp
  | cons i t ih =>
    intro acc
    have h1 := placeStep_length ms gen acc i
    have h2 := ih (placeStep ms gen acc i)
    simp only [List.foldl_cons, List.length_cons]
    omega

theorem hov55 : hasOverlap 5 5 [⟨5, 5⟩] 10 := by
  refine ⟨⟨5, 5⟩, by simp, ?_⟩
  norm_num [Real.sqrt_zero]

theorem placeAttempts_nil_const55 :
    placeAttempts [] (fun _ => ((5 : ℝ), (5 : ℝ))) 10 0 = ((5, 5), 1) := by
  unfold placeAttempts
  rw [dif_neg]
  rintro ⟨-, p, hp, -⟩
  simp at hp

theorem placeAttempts_const55 :
    (placeAttempts [⟨5, 5⟩] (fun _ => ((5 : ℝ), (5 : ℝ))) 10 0).2 = 50 :=
  placeAttempts_stuck [⟨5, 5⟩] (fun _ => ((5 : ℝ), (5 : ℝ))) 10
    (fun _ => hov55) 50 0 (by omega) (by omega)

theorem randomCandidate_zero :
    randomCandidate ⟨10, 10⟩ none (0, 0) = ((5 : ℝ), (5 : ℝ)) := by
  simp [randomCandidate, jsOrR]
  norm_num

end Reliq

namespace Reliq

/-- C7 counterexample: surface 10×10, responsive density 200, particle
multiplier 1 (so 2 particles are requested), every random draw 0 (every
candidate is the surface centre `(5, 5)`).  The first particle is
placed; every candidate for the second overlaps it, the attempt budget
is exhausted, and the particle is *dropped* — only one particle is
returned, not a best-effort second one as the claim states. -/
theorem placement_budget_drop_counterexample :
    placementCount ⟨10, 10⟩ 200 (some 1) = 2 ∧
    createRandomParticles ⟨10, 10⟩ 200 (some 1) none (fun _ _ => (0, 0))
      = [⟨5, 5⟩] := by
  have hcount : placementCount ⟨10, 10⟩ 200 (some 1) = 2 := by
    rw [placementCount]
    norm_num [jsOrR]
    decide
  have hgen : (fun (i a : ℕ) => randomCandidate ⟨10, 10⟩ none
      ((fun (_ _ : ℕ) => ((0 : ℝ), (0 : ℝ))) i a))
      = fun (_ _ : ℕ) => ((5 : ℝ), (5 : ℝ)) := by
    funext i a
    exact randomCandidate_zero
  have hstep0 : placeStep 10 (fun _ _ => ((5 : ℝ), (5 : ℝ))) [] 0 = [⟨5, 5⟩] := by
    unfold placeStep
    simp only []
    rw [placeAttempts_nil_const55]
    norm_num
  have hstep1 : placeStep 10 (fun _ _ => ((5 : ℝ), (5 : ℝ))) [⟨5, 5⟩] 1 = [⟨5, 5⟩] := by
    unfold placeStep
    simp only []
    rw [placeAttempts_const55]
    norm_num
  refine ⟨hcount, ?_⟩
  rw [createRandomParticles, hcount, hgen]
  rw [show List.range 2 = [0, 1] by decide]
  simp only [List.foldl_cons, List.foldl_nil]
  rw [hstep0, hstep1]

/-- C7 (amended): random and around-image placement terminates within
the 50-attempt budget per particle, so placement never loops forever and
reports no error even when overlap-free placement is impossible; but
when the budget is exhausted the sampled point for that particle is
*dropped*, not accepted — both placement modes return at most (and
possibly fewer than) the requested number of particles. -/
theorem placement_attempt_budget (surface : Surface) (density : ℝ)
    (particleMultiplier radiusPct bufferPct : Option ℝ) (rand : ℕ → ℕ → ℝ × ℝ)
    (existing : List SecP) (gen1 : ℕ → ℝ × ℝ) (gen2 : ℕ → ℕ → ℝ × ℝ)
    (ms : ℝ) (acc : List SecP) (i : ℕ) :
    (placeAttempts existing gen1 ms 0).2 ≤ 50 ∧
    ((placeAttempts acc (gen2 i) ms 0).2 = 50 → placeStep ms gen2 acc i = acc) ∧
    (createRandomParticles surface density particleMultiplier radiusPct rand).length
      ≤ placementCount surface density particleMultiplier ∧
    (createAroundImageParticles surface density particleMultiplier bufferPct rand).length
      ≤ placementCount surface density particleMultiplier := by
  refine ⟨placeAttempts_le existing gen1 ms 50 0 (by omega) (by omega), ?_, ?_, ?_⟩
  · intro h50
    unfold placeStep
    rw [h50]
    norm_num
  · have h := foldl_placeStep_length 10
      (fun i a => randomCandidate surface radiusPct (rand i a))
      (List.range (placementCount surface density particleMultiplier)) []
    simpa [createRandomParticles] using h
  · have h := foldl_placeStep_length 10
      (fun i a => aroundImageCandidate surface bufferPct (rand i a))
      (List.range (placementCount surface density particleMultiplier)) []
    simpa [createAroundImageParticles] using h

/-- C7 witness: the 10×10 surface scenario — the attempt loop for the
second particle exhausts the budget (50 attempts), the step drops it,
and the returned list is shorter than the requested count. -/
theorem placement_attempt_budget_witness :
    (placeAttempts [] (fun _ => ((5 : ℝ), (5 : ℝ))) 10 0).2 ≤ 50 ∧
    ((placeAttempts [⟨5, 5⟩] (fun _ => ((5 : ℝ), (5 : ℝ))) 10 0).2 = 50 ∧
      placeStep 10 (fun _ _ => ((5 : ℝ), (5 : ℝ))) [⟨5, 5⟩] 1 = [⟨5, 5⟩]) ∧
    (createRandomParticles ⟨10, 10⟩ 200 (some 1) none (fun _ _ => (0, 0))).length
      ≤ placementCount ⟨10, 10⟩ 200 (some 1) := by
  have h := placement_attempt_budget ⟨10, 10⟩ 200 (some 1) none none
    (fun _ _ => (0, 0)) [] (fun _ => ((5 : ℝ), (5 : ℝ)))
    (fun _ _ => ((5 : ℝ), (5 : ℝ))) 10 [⟨5, 5⟩] 1
  exact ⟨h.1, ⟨placeAttempts_const55, h.2.1 placeAttempts_const55⟩, h.2.2.1⟩

end Reliq

namespace Reliq

/-- C3 witness: the concrete two-frame run with frame `2` failing. -/
theorem loadFrames_failed_not_counted_witness :
    (2 ∈ ([1, 2] : List ℕ) ∧ (fun f => f == 1) 2 = false) ∧
    (loadAnimationFrames FrameCache.new [1, 2] (fun f => f == 1)
        (fun _ => ⟨some [], 0, 0⟩)).isFullyLoaded = false ∧
    (loadAnimationFrames FrameCache.new [1, 2] (fun f => f == 1)
        (fun _ => ⟨some [], 0, 0⟩)).getFrame 2 = none := by
  have h := loadFrames_failed_not_counted FrameCache.new [1, 2] (fun f => f == 1)
    (fun _ => ⟨some [], 0, 0⟩) 2 (by decide) (by decide)
  exact ⟨⟨by decide, by decide⟩, h.2.2.1, h.2.2.2⟩

end Reliq
